import Mathlib

/-!
Verification of the `Rectangle` class from `src/Custom Classes/rectangle.py`.

The Python source is shallowly embedded: Python runtime values that can reach
the constructor are an inductive type `PyVal` (integers, booleans — a subtype
of `int` in Python, so `isinstance (x, int)` accepts them — floats and
strings); Python exceptions become an error type `PyErr` and fallible
operations return `Except PyErr`; the instance's attribute dictionary becomes
two `Option PyVal` fields (`none` = attribute never assigned), so that
attribute access can fail exactly when Python's would; the generator
`__iter__` becomes an explicit step machine over an iterator-state type, and a
full `for`-loop traversal is running that machine to exhaustion.
-/

/-- Python values relevant to this program: `int n`, `bool b` (in Python a
subtype of `int`, with `True` equal to `1` and `False` to `0`), `float`
(payload `q` standing for the float `q.0`), and `str`. -/
inductive PyVal where
  | int (n : Int)
  | bool (b : Bool)
  | float (q : Int)
  | str (s : String)
deriving DecidableEq, Repr

/-- Python's `isinstance (v, int)`: true for `int` and for `bool` (a subtype
of `int` in Python), false for `float` and `str`. -/
def PyVal.isInt : PyVal → Bool
  | .int _ => true
  | .bool _ => true
  | .float _ => false
  | .str _ => false

/-- The integer value a Python `int` or `bool` denotes in an arithmetic
comparison such as `length <= 0` (`True` counts as `1`, `False` as `0`).
Only evaluated after `isInt` has passed; the remaining cases are junk. -/
def PyVal.toInt : PyVal → Int
  | .int n => n
  | .bool b => if b then 1 else 0
  | .float q => q
  | .str _ => 0

/-- Python's `str (v)` as used by the f-string in `__repr__`. -/
def PyVal.pyStr : PyVal → String
  | .int n => toString n
  | .bool b => if b then "True" else "False"
  | .float q => toString q ++ ".0"
  | .str s => s

/-- Python exceptions this program can raise: `TypeError` and `ValueError`
from the constructor, `AttributeError` for access to an unset attribute. -/
inductive PyErr where
  | typeError (msg : String)
  | valueError (msg : String)
  | attributeError (msg : String)
deriving DecidableEq, Repr

/-- A Python dict as yielded by `__iter__` (association list of entries). -/
abbrev Dict := List (String × PyVal)

/-- A `Rectangle` instance: its attribute dictionary. `none` means the
attribute was never assigned (accessing it would raise `AttributeError`). -/
structure Rectangle where
  length? : Option PyVal
  width? : Option PyVal
deriving DecidableEq, Repr

/-- `Rectangle.__init__`: raise `TypeError` unless both arguments are
instances of `int`; then raise `ValueError` unless both are strictly
positive; otherwise assign both attributes. -/
def Rectangle.init (length width : PyVal) : Except PyErr Rectangle :=
  if !length.isInt || !width.isInt then
    .error (.typeError "Length and width must be integers.")
  else if length.toInt ≤ 0 ∨ width.toInt ≤ 0 then
    .error (.valueError "Length and width must be positive integers.")
  else
    .ok { length? := some length, width? := some width }

/-- Attribute read `self.length`. -/
def Rectangle.getLength (r : Rectangle) : Except PyErr PyVal :=
  match r.length? with
  | some v => .ok v
  | none => .error (.attributeError "length")

/-- Attribute read `self.width`. -/
def Rectangle.getWidth (r : Rectangle) : Except PyErr PyVal :=
  match r.width? with
  | some v => .ok v
  | none => .error (.attributeError "width")

/-- Control state of the generator returned by `__iter__`: before the first
`yield`, between the two `yield`s, or exhausted. -/
inductive IterState where
  | start
  | yieldedLength
  | yieldedWidth
deriving DecidableEq, Repr

/-- One `next ()` call on the generator of `__iter__`: reads the attribute the
current `yield` needs and produces `(yielded item or none when exhausted,
instance afterwards, next control state)`. -/
def Rectangle.iterStep (r : Rectangle) : IterState → Except PyErr (Option Dict × Rectangle × IterState)
  | .start =>
    match r.getLength with
    | .error e => .error e
    | .ok v => .ok (some [("length", v)], r, .yieldedLength)
  | .yieldedLength =>
    match r.getWidth with
    | .error e => .error e
    | .ok v => .ok (some [("width", v)], r, .yieldedWidth)
  | .yieldedWidth => .ok (none, r, .yieldedWidth)

/-- Run the generator for at most `fuel` `next ()` calls, collecting the
yielded dicts, and return them with the instance as it stands afterwards. -/
def runGen : Nat → Rectangle → IterState → Except PyErr (List Dict × Rectangle)
  | 0, r, _ => .ok ([], r)
  | fuel + 1, r, st =>
    match Rectangle.iterStep r st with
    | .error e => .error e
    | .ok (none, r', _) => .ok ([], r')
    | .ok (some d, r', st') =>
      match runGen fuel r' st' with
      | .error e => .error e
      | .ok (ds, r'') => .ok (d :: ds, r'')

/-- A complete `for`-loop traversal: a fresh generator (`IterState.start`) run
to exhaustion (three `next ()` calls suffice: two yields, one stop). -/
def Rectangle.traverse (r : Rectangle) : Except PyErr (List Dict × Rectangle) :=
  runGen 3 r .start

/-- `Rectangle.__repr__`: the f-string `Rectangle(length=..., width=...)`
built from the two attribute reads. -/
def Rectangle.repr (r : Rectangle) : Except PyErr String :=
  match r.getLength, r.getWidth with
  | .ok l, .ok w => .ok ("Rectangle(length=" ++ l.pyStr ++ ", width=" ++ w.pyStr ++ ")")
  | .error e, _ => .error e
  | _, .error e => .error e

/-- The documented invariant of a constructed instance: both attributes are
set, hold Python integers, and are strictly positive. -/
def Rectangle.inv (r : Rectangle) : Prop :=
  ∃ lv wv, r.length? = some lv ∧ r.width? = some wv ∧
    lv.isInt = true ∧ 0 < lv.toInt ∧ wv.isInt = true ∧ 0 < wv.toInt

theorem Rectangle.init_ok_iff (l w : PyVal) (r : Rectangle) :
    Rectangle.init l w = .ok r ↔
      l.isInt = true ∧ w.isInt = true ∧ 0 < l.toInt ∧ 0 < w.toInt ∧
        r = ⟨some l, some w⟩ := by
  constructor
  · intro h
    unfold Rectangle.init at h
    by_cases h1 : (!l.isInt || !w.isInt) = true
    · rw [if_pos h1] at h; exact Except.noConfusion h
    · rw [if_neg h1] at h
      by_cases h2 : l.toInt ≤ 0 ∨ w.toInt ≤ 0
      · rw [if_pos h2] at h; exact Except.noConfusion h
      · rw [if_neg h2] at h
        simp only [Bool.or_eq_true, Bool.not_eq_true', not_or,
          Bool.not_eq_false] at h1
        simp only [not_or, not_le] at h2
        injection h with h
        exact ⟨h1.1, h1.2, h2.1, h2.2, h.symm⟩
  · rintro ⟨hl, hw, hpl, hpw, rfl⟩
    unfold Rectangle.init
    rw [if_neg (by simp [hl, hw]), if_neg (by omega)]

theorem Rectangle.iterStep_rect (r : Rectangle) (st : IterState)
    (out : Option Dict × Rectangle × IterState)
    (h : r.iterStep st = .ok out) : out.2.1 = r := by
  cases st <;> simp only [Rectangle.iterStep] at h
  · cases hg : r.getLength <;> rw [hg] at h
    · exact Except.noConfusion h
    · injection h with h; rw [← h]
  · cases hg : r.getWidth <;> rw [hg] at h
    · exact Except.noConfusion h
    · injection h with h; rw [← h]
  · injection h with h; rw [← h]

theorem runGen_rect_eq (fuel : Nat) (r : Rectangle) (st : IterState)
    (ds : List Dict) (r' : Rectangle)
    (h : runGen fuel r st = .ok (ds, r')) : r' = r := by
  induction fuel generalizing r st ds r' with
  | zero =>
    simp only [runGen] at h
    injection h with h
    exact (congrArg Prod.snd h).symm
  | succ n ih =>
    cases hs : r.iterStep st with
    | error e =>
      simp only [runGen, hs] at h
      exact Except.noConfusion h
    | ok out =>
      obtain ⟨d?, r1, st1⟩ := out
      have hr1 : r1 = r := Rectangle.iterStep_rect r st _ hs
      cases d? with
      | none =>
        simp only [runGen, hs, Except.ok.injEq, Prod.mk.injEq] at h
        exact h.2.symm.trans hr1
      | some d =>
        cases hrec : runGen n r1 st1 with
        | error e =>
          simp only [runGen, hs, hrec] at h
          exact Except.noConfusion h
        | ok p =>
          obtain ⟨ds1, r2⟩ := p
          simp only [runGen, hs, hrec, Except.ok.injEq, Prod.mk.injEq] at h
          exact h.2.symm.trans ((ih r1 st1 ds1 r2 hrec).trans hr1)

/-- C1: for all integers `l > 0` and `w > 0`, `Rectangle (l, w)` constructs
successfully and a full traversal yields exactly the two dicts
`length: l` then `width: w`, in that order and nothing else. -/
theorem rectangle_c1_construct_and_iterate (l w : Int) (hl : 0 < l) (hw : 0 < w) :
    ∃ r, Rectangle.init (.int l) (.int w) = .ok r ∧
      r.traverse = .ok ([[("length", PyVal.int l)], [("width", PyVal.int w)]], r) := by
  refine ⟨⟨some (.int l), some (.int w)⟩, ?_, rfl⟩
  rw [Rectangle.init_ok_iff]
  exact ⟨rfl, rfl, hl, hw, rfl⟩

/-- Witness for C1 at the concrete input `l = 5`, `w = 3`. -/
theorem rectangle_c1_construct_and_iterate_witness :
    (0 : Int) < 5 ∧ (0 : Int) < 3 ∧
    ∃ r, Rectangle.init (.int 5) (.int 3) = .ok r ∧
      r.traverse = .ok ([[("length", PyVal.int 5)], [("width", PyVal.int 3)]], r) :=
  ⟨by decide, by decide, rectangle_c1_construct_and_iterate 5 3 (by decide) (by decide)⟩

/-- C2: whenever either argument is not an instance of `int` (floats and
strings are not; the argument's value is irrelevant, so the type check fires
before the positivity check), construction fails with the `TypeError`. -/
theorem rectangle_c2_type_error (l w : PyVal)
    (h : l.isInt = false ∨ w.isInt = false) :
    Rectangle.init l w = .error (.typeError "Length and width must be integers.") := by
  rcases h with h | h <;> simp [Rectangle.init, h]

/-- Witness for C2 at the spec's concrete input `Rectangle (5, 3.0)`. -/
theorem rectangle_c2_type_error_witness :
    PyVal.isInt (.float 3) = false ∧
    Rectangle.init (.int 5) (.float 3) =
      .error (.typeError "Length and width must be integers.") :=
  ⟨rfl, rectangle_c2_type_error (.int 5) (.float 3) (Or.inr rfl)⟩

/-- C3: whenever both arguments are instances of `int` but either denotes a
non-positive integer, construction fails with the `ValueError`. -/
theorem rectangle_c3_value_error (l w : PyVal)
    (hl : l.isInt = true) (hw : w.isInt = true)
    (h : l.toInt ≤ 0 ∨ w.toInt ≤ 0) :
    Rectangle.init l w = .error (.valueError "Length and width must be positive integers.") := by
  simp [Rectangle.init, hl, hw, h]

/-- Witness for C3 at the spec's concrete input `Rectangle (0, 3)`. -/
theorem rectangle_c3_value_error_witness :
    PyVal.isInt (.int 0) = true ∧ PyVal.toInt (.int 0) ≤ 0 ∧
    Rectangle.init (.int 0) (.int 3) =
      .error (.valueError "Length and width must be positive integers.") :=
  ⟨rfl, by decide, rectangle_c3_value_error (.int 0) (.int 3) rfl rfl (Or.inl (by decide))⟩

/-- C4: a successfully constructed instance satisfies the invariant (both
attributes set, integers, strictly positive), and the invariant still holds
after any generator step and after a full traversal (neither mutates it). -/
theorem rectangle_c4_invariant (l w : PyVal) (r : Rectangle)
    (h : Rectangle.init l w = .ok r) :
    Rectangle.inv r ∧
    (∀ st out, r.iterStep st = .ok out → Rectangle.inv out.2.1) ∧
    (∀ ds r', r.traverse = .ok (ds, r') → Rectangle.inv r') := by
  rw [Rectangle.init_ok_iff] at h
  obtain ⟨hl, hw, hpl, hpw, rfl⟩ := h
  have hinv : Rectangle.inv ⟨some l, some w⟩ := ⟨l, w, rfl, rfl, hl, hpl, hw, hpw⟩
  refine ⟨hinv, ?_, ?_⟩
  · intro st out hst
    rw [Rectangle.iterStep_rect _ _ _ hst]
    exact hinv
  · intro ds r' ht
    rw [runGen_rect_eq 3 _ .start ds r' ht]
    exact hinv

/-- Witness for C4 at the concrete input `Rectangle (5, 3)`. -/
theorem rectangle_c4_invariant_witness :
    Rectangle.init (.int 5) (.int 3) = .ok ⟨some (.int 5), some (.int 3)⟩ ∧
    Rectangle.inv ⟨some (.int 5), some (.int 3)⟩ :=
  ⟨rfl, (rectangle_c4_invariant (.int 5) (.int 3) ⟨some (.int 5), some (.int 3)⟩ rfl).1⟩

/-- C5: iteration is restartable: traversing a constructed instance, and then
traversing the instance as it stands after that first traversal, yields the
same list of dicts both times. -/
theorem rectangle_c5_restartable (l w : PyVal) (r : Rectangle)
    (h : Rectangle.init l w = .ok r) :
    ∃ ds r1, r.traverse = .ok (ds, r1) ∧ r1.traverse = .ok (ds, r1) := by
  rw [Rectangle.init_ok_iff] at h
  obtain ⟨-, -, -, -, rfl⟩ := h
  exact ⟨[[("length", l)], [("width", w)]], ⟨some l, some w⟩, rfl, rfl⟩

/-- Witness for C5 at the concrete input `Rectangle (5, 3)`. -/
theorem rectangle_c5_restartable_witness :
    ∃ ds r1, Rectangle.traverse ⟨some (.int 5), some (.int 3)⟩ = .ok (ds, r1) ∧
      r1.traverse = .ok (ds, r1) :=
  rectangle_c5_restartable (.int 5) (.int 3) ⟨some (.int 5), some (.int 3)⟩ rfl

/-- C6: the textual representation of a constructed instance with attribute
values `l` and `w` is the string `Rectangle(length=<l>, width=<w>)`. -/
theorem rectangle_c6_repr (l w : PyVal) (r : Rectangle)
    (h : Rectangle.init l w = .ok r) :
    r.repr = .ok ("Rectangle(length=" ++ l.pyStr ++ ", width=" ++ w.pyStr ++ ")") := by
  rw [Rectangle.init_ok_iff] at h
  obtain ⟨-, -, -, -, rfl⟩ := h
  rfl

/-- Witness for C6 at the spec's concrete input: the representation of
`Rectangle (5, 3)` is the literal `Rectangle(length=5, width=3)`. -/
theorem rectangle_c6_repr_witness :
    Rectangle.init (.int 5) (.int 3) = .ok ⟨some (.int 5), some (.int 3)⟩ ∧
    Rectangle.repr ⟨some (.int 5), some (.int 3)⟩ = .ok "Rectangle(length=5, width=3)" :=
  ⟨rfl,
    (rectangle_c6_repr (.int 5) (.int 3) ⟨some (.int 5), some (.int 3)⟩ rfl).trans (by rfl)⟩

/-- C7: iteration does not mutate the instance: after any partial or complete
run of the generator of a constructed instance (any fuel, any starting
control state), both attributes hold the values they held before. -/
theorem rectangle_c7_no_mutation (l w : PyVal) (r : Rectangle)
    (_h : Rectangle.init l w = .ok r) (fuel : Nat) (st : IterState)
    (ds : List Dict) (r' : Rectangle)
    (h2 : runGen fuel r st = .ok (ds, r')) :
    r'.length? = r.length? ∧ r'.width? = r.width? := by
  rw [runGen_rect_eq fuel r st ds r' h2]
  exact ⟨rfl, rfl⟩

/-- Witness for C7: a one-step (partial) run on `Rectangle (5, 3)` leaves the
attributes unchanged. -/
theorem rectangle_c7_no_mutation_witness :
    runGen 1 ⟨some (.int 5), some (.int 3)⟩ .start =
      .ok ([[("length", PyVal.int 5)]], ⟨some (.int 5), some (.int 3)⟩) ∧
    (Rectangle.length? ⟨some (.int 5), some (.int 3)⟩ = some (PyVal.int 5) ∧
     Rectangle.width? ⟨some (.int 5), some (.int 3)⟩ = some (PyVal.int 3)) := by
  constructor
  · rfl
  · have h := rectangle_c7_no_mutation (.int 5) (.int 3) ⟨some (.int 5), some (.int 3)⟩ rfl
      1 .start [[("length", PyVal.int 5)]] ⟨some (.int 5), some (.int 3)⟩ rfl
    exact h

/-- C8: construction is atomic: on success the instance's attributes are
exactly the two supplied values (no substitution), and on failure the result
is exactly one of the two constructor errors and no instance at all (the
`Except` result carries no partially constructed state). -/
theorem rectangle_c8_atomic (l w : PyVal) :
    (∀ r, Rectangle.init l w = .ok r → r.length? = some l ∧ r.width? = some w) ∧
    (∀ e, Rectangle.init l w = .error e →
      (e = .typeError "Length and width must be integers." ∨
       e = .valueError "Length and width must be positive integers.") ∧
      ∀ r, Rectangle.init l w ≠ .ok r) := by
  constructor
  · intro r h
    rw [Rectangle.init_ok_iff] at h
    obtain ⟨-, -, -, -, rfl⟩ := h
    exact ⟨rfl, rfl⟩
  · intro e h
    refine ⟨?_, ?_⟩
    · unfold Rectangle.init at h
      by_cases h1 : (!l.isInt || !w.isInt) = true
      · rw [if_pos h1] at h
        injection h with h
        exact Or.inl h.symm
      · rw [if_neg h1] at h
        by_cases h2 : l.toInt ≤ 0 ∨ w.toInt ≤ 0
        · rw [if_pos h2] at h
          injection h with h
          exact Or.inr h.symm
        · rw [if_neg h2] at h
          exact Except.noConfusion h
    · intro r hk
      rw [hk] at h
      exact Except.noConfusion h

/-- Witness for C8: the success side at `Rectangle (5, 3)` and the failure
side at `Rectangle (0, 3)`. -/
theorem rectangle_c8_atomic_witness :
    (Rectangle.length? ⟨some (.int 5), some (.int 3)⟩ = some (PyVal.int 5) ∧
     Rectangle.width? ⟨some (.int 5), some (.int 3)⟩ = some (PyVal.int 3)) ∧
    (PyErr.valueError "Length and width must be positive integers." =
        .typeError "Length and width must be integers." ∨
     PyErr.valueError "Length and width must be positive integers." =
        .valueError "Length and width must be positive integers.") :=
  ⟨(rectangle_c8_atomic (.int 5) (.int 3)).1 ⟨some (.int 5), some (.int 3)⟩ rfl,
   ((rectangle_c8_atomic (.int 0) (.int 3)).2
      (.valueError "Length and width must be positive integers.") rfl).1⟩

/-- C9: errors arise only in construction: on a successfully constructed
instance a full traversal succeeds (yielding exactly two dicts and ending in
the exhausted state rather than an error) and the textual representation
succeeds, so neither ever raises. -/
theorem rectangle_c9_no_errors_after_init (l w : PyVal) (r : Rectangle)
    (h : Rectangle.init l w = .ok r) :
    (∃ ds, r.traverse = .ok (ds, r) ∧ ds.length = 2) ∧ (∃ s, r.repr = .ok s) := by
  rw [Rectangle.init_ok_iff] at h
  obtain ⟨-, -, -, -, rfl⟩ := h
  exact ⟨⟨[[("length", l)], [("width", w)]], rfl, rfl⟩, ⟨_, rfl⟩⟩

/-- Witness for C9 at the concrete input `Rectangle (5, 3)`. -/
theorem rectangle_c9_no_errors_after_init_witness :
    (∃ ds, Rectangle.traverse ⟨some (.int 5), some (.int 3)⟩ =
        .ok (ds, ⟨some (.int 5), some (.int 3)⟩) ∧ ds.length = 2) ∧
    (∃ s, Rectangle.repr ⟨some (.int 5), some (.int 3)⟩ = .ok s) :=
  rectangle_c9_no_errors_after_init (.int 5) (.int 3) ⟨some (.int 5), some (.int 3)⟩ rfl

/-- C10: booleans pass the `isinstance (…, int)` check (`bool` is a subtype
of `int` in Python), `True` counts as the integer `1` in the positivity
check, and so `Rectangle (True, 2)` constructs successfully instead of
raising a `TypeError`. -/
theorem rectangle_c10_bool_accepted :
    PyVal.isInt (.bool true) = true ∧ PyVal.toInt (.bool true) = 1 ∧
    Rectangle.init (.bool true) (.int 2) = .ok ⟨some (.bool true), some (.int 2)⟩ :=
  ⟨rfl, rfl, rfl⟩
